import Mathlib

/-!
Shallow embedding of the order placement and fulfillment workflow of the
lokalnest marketplace application, together with theorems settling the
frozen claims about it.

The embedding follows the TypeScript source:
  * `Cart` : the cart store (`src/components/buyer/shopping/Cart.tsx`);
  * `Checkout` : delivery options, fee lookup and estimated delivery
    (`src/pages/Checkout.tsx`, using `addBusinessDays` of date-fns);
  * `OrderService` : the order-service `createOrder` variant (order row,
    order items, stock decrement, inventory log, notifications);
  * `CartService` : the cart-service `createOrder` variant;
  * `StripeService` : `createPaymentIntent`;
  * `OrderCard` : the buyer-side cancellation handler.

Monetary amounts are modelled as `Int`, calendar days as `Nat` day indices
where day `d` has weekday `d % 7` (`0` = Sunday, `6` = Saturday, matching
the JavaScript `Date.getDay` convention).  Database identifiers are
strings, database tables are association lists, and each modelled
procedure is a pure function from its inputs (including the relevant
database rows) to the rows it writes; a failed validation returns
`none` / `Except.error` and, by construction, no written rows.
-/

namespace Lokalnest

/-- Cart line item, from the `CartItem` type of `Cart.tsx`. -/
structure CartItem where
  id : String
  name : String
  price : Int
  quantity : Int
  image : String
  seller : String
  selected : Bool
deriving Repr, DecidableEq

namespace Cart

/-- Product row as read by the cart (`stock_quantity, is_available, seller_id, name`). -/
structure ProductRow where
  stock_quantity : Int
  is_available : Bool
  seller_id : Option String
  name : String
deriving Repr, DecidableEq

/-- Helper for `addItem`: walk the list looking for an existing item with the
given product id; bump the first match by one (unless that would exceed the
reported stock), or append a fresh item with quantity 1 when there is no match.
This mirrors the `findIndex` / append logic of `addItem` in `Cart.tsx`. -/
def addLoop (pid pname : String) (pprice : Int) (pimage sellerId : String)
    (stock : Int) : List CartItem → List CartItem
  | [] => [{ id := pid, name := pname, price := pprice, quantity := 1,
             image := pimage, seller := sellerId, selected := false }]
  | item :: rest =>
    if item.id = pid then
      (if item.quantity + 1 > stock then item
       else { item with quantity := item.quantity + 1 }) :: rest
    else item :: addLoop pid pname pprice pimage sellerId stock rest

/-- The `addItem` cart operation of `Cart.tsx`.  `db` is the result of the
product availability query; on a query error (`none`), an unavailable or
out-of-stock product, or a product without a seller id, the cart is left
unchanged. -/
def addItem (db : Option ProductRow) (pid pname : String) (pprice : Int)
    (pimage : String) (items : List CartItem) : List CartItem :=
  match db with
  | none => items
  | some p =>
    if !p.is_available || p.stock_quantity ≤ 0 then items
    else
      match p.seller_id with
      | none => items
      | some sid => addLoop pid pname pprice pimage sid p.stock_quantity items

/-- The `removeItem` cart operation of `Cart.tsx`. -/
def removeItem (id : String) (items : List CartItem) : List CartItem :=
  items.filter (fun item => !(item.id = id))

/-- The `updateQuantity` cart operation of `Cart.tsx`.  `db` is the result of
the stock query (`stock_quantity`).  A requested quantity of zero or less
removes the item; a requested quantity above the reported stock clamps the
item to the reported stock. -/
def updateQuantity (db : Option Int) (id : String) (q : Int)
    (items : List CartItem) : List CartItem :=
  if q ≤ 0 then removeItem id items
  else
    match db with
    | none => items
    | some stock =>
      if q > stock then
        items.map (fun item => if item.id = id then { item with quantity := stock } else item)
      else
        items.map (fun item => if item.id = id then { item with quantity := q } else item)

/-- The `toggleItemSelection` cart operation of `Cart.tsx`. -/
def toggleItemSelection (id : String) (items : List CartItem) : List CartItem :=
  items.map (fun item => if item.id = id then { item with selected := !item.selected } else item)

/-- The `toggleAllSelection` cart operation of `Cart.tsx`. -/
def toggleAllSelection (selected : Bool) (items : List CartItem) : List CartItem :=
  items.map (fun item => { item with selected := selected })

/-- The `clearCart` cart operation of `Cart.tsx`. -/
def clearCart (_items : List CartItem) : List CartItem := []

/-- The `selectedItems` derived value of `Cart.tsx`. -/
def selectedItems (items : List CartItem) : List CartItem :=
  items.filter (fun item => item.selected)

/-- Sum of `price * quantity` over a list of cart items, as computed by the
`reduce` calls in `Cart.tsx`, `orderService` and `stripeService`. -/
def subtotal (items : List CartItem) : Int :=
  items.foldl (fun total item => total + item.price * item.quantity) 0

/-- The `selectedItemsTotal` derived value of `Cart.tsx`. -/
def selectedItemsTotal (items : List CartItem) : Int :=
  subtotal (selectedItems items)

/-- Invariant claimed for the cart: every item has quantity at least 1. -/
def quantitiesPositive (items : List CartItem) : Bool :=
  items.all (fun item => 1 ≤ item.quantity)

end Cart


namespace Checkout

/-- One delivery option of the fixed `deliveryOptions` table in `Checkout.tsx`. -/
structure DeliveryOption where
  id : String
  name : String
  description : String
  fee : Int
  minDays : Nat
  maxDays : Nat
deriving Repr, DecidableEq

/-- The fixed `deliveryOptions` lookup table of `Checkout.tsx`. -/
def deliveryOptions : List DeliveryOption :=
  [{ id := "standard", name := "Standard Delivery", description := "3-5 business days",
     fee := 50, minDays := 3, maxDays := 5 },
   { id := "express", name := "Express Delivery", description := "1-2 business days",
     fee := 100, minDays := 1, maxDays := 2 },
   { id := "maxim", name := "Maxim Same-day", description := "Same day delivery",
     fee := 150, minDays := 0, maxDays := 1 }]

/-- The `selectedDeliveryFee` derived value of `Checkout.tsx`:
`deliveryOptions.find(o => o.id === sel)?.fee || 50`.  A missing option (and,
because `||` treats 0 as falsy, a zero fee) falls back to 50. -/
def selectedDeliveryFee (sel : String) : Int :=
  match deliveryOptions.find? (fun o => o.id = sel) with
  | some o => if o.fee = 0 then 50 else o.fee
  | none => 50

/-- Weekend test on day indices: day `d` is a Saturday or Sunday.  Matches
the `isWeekend` helper of date-fns under the convention weekday = `d % 7`,
`0` = Sunday, `6` = Saturday. -/
def isWeekendDay (d : Nat) : Bool :=
  d % 7 = 0 || d % 7 = 6

/-- Specification-level step: the first non-weekend day strictly after `d`. -/
def nextBusinessDay (d : Nat) : Nat :=
  if d % 7 = 5 then d + 3
  else if d % 7 = 6 then d + 2
  else d + 1

/-- The date-fns `addBusinessDays` function restricted to a non-negative
amount, translated from its JavaScript source: add `amount / 5` full weeks,
then walk forward day by day counting only non-weekend days for the
remaining `amount % 5` (the while loop is the `amount % 5`-fold iterate of
`nextBusinessDay`), and finally, when the start date was a weekend and the
result landed on a weekend, pull the result back to the preceding Friday. -/
def addBusinessDays (today : Nat) (amount : Nat) : Nat :=
  let startedOnWeekend := isWeekendDay today
  let fullWeeks := amount / 5
  let afterWeeks := today + fullWeeks * 7
  let restDays := amount % 5
  let d := Nat.iterate nextBusinessDay restDays afterWeeks
  if startedOnWeekend && isWeekendDay d && amount ≠ 0 then
    if d % 7 = 6 then d - 1
    else if d % 7 = 0 then d - 2
    else d
  else d

/-- The `calculateEstimatedDelivery` function of `Checkout.tsx`: today plus
the maximum business days of the selected option, or `none` when the
selected option id is not in the table. -/
def calculateEstimatedDelivery (today : Nat) (sel : String) : Option Nat :=
  match deliveryOptions.find? (fun o => o.id = sel) with
  | some o => some (addBusinessDays today o.maxDays)
  | none => none

/-- The `totalWithShipping` derived value of `Checkout.tsx`. -/
def totalWithShipping (items : List CartItem) (sel : String) : Int :=
  Cart.selectedItemsTotal items + selectedDeliveryFee sel

end Checkout


/-- Hexadecimal digit test, for the character classes `[0-9a-f]` with the `i`
flag of the UUID regular expression. -/
def isHexChar (c : Char) : Bool :=
  (Char.ofNat 48 ≤ c && c ≤ Char.ofNat 57) ||
  (Char.ofNat 97 ≤ c && c ≤ Char.ofNat 102) ||
  (Char.ofNat 65 ≤ c && c ≤ Char.ofNat 70)

/-- Split a character list into its maximal dash-free groups (`Char.ofNat 45`
is the dash). -/
def splitOnDash : List Char → List (List Char)
  | [] => [[]]
  | c :: rest =>
    let r := splitOnDash rest
    if c = Char.ofNat 45 then [] :: r
    else
      match r with
      | [] => [[c]]
      | g :: gs => (c :: g) :: gs

/-- The `isValidUUID` helper shared by both `createOrder` variants: the
anchored, case-insensitive regular expression
`hex8 - hex4 - hex4 - hex4 - hex12`.  A string matches exactly when
splitting it on dashes yields five dash-free groups of those lengths made
of hexadecimal digits. -/
def isValidUUID (s : String) : Bool :=
  match splitOnDash s.toList with
  | [a, b, c, d, e] =>
    a.length = 8 && b.length = 4 && c.length = 4 && d.length = 4 && e.length = 12 &&
    (a ++ b ++ c ++ d ++ e).all isHexChar
  | _ => false


/-- Product row of the `products` table as used during order creation. -/
structure ProductRec where
  stock_quantity : Int
  seller_id : String
  name : String
deriving Repr, DecidableEq

/-- The `products` table, keyed by product id. -/
abbrev ProductsDB := List (String × ProductRec)

/-- Lookup of a product row by id. -/
def lookupProduct (db : ProductsDB) (id : String) : Option ProductRec :=
  (db.find? (fun p => p.fst = id)).map Prod.snd

/-- The `update products set stock_quantity = q where id = id` write. -/
def updateStock (db : ProductsDB) (id : String) (q : Int) : ProductsDB :=
  db.map (fun p => if p.fst = id then (p.fst, { p.snd with stock_quantity := q }) else p)

/-- Row of the `orders` table, with the columns written by order creation. -/
structure OrderRow where
  buyer_id : String
  seller_id : Option String
  status : String
  total_amount : Int
  payment_method : String
  payment_status : Option String
  shipping_address : String
  billing_address : String
  delivery_option : Option String
  payment_intent_id : Option String
deriving Repr, DecidableEq

/-- Row of the `order_items` table. -/
structure OrderItemRow where
  order_id : String
  product_id : String
  quantity : Int
  unit_price : Int
  total_price : Int
deriving Repr, DecidableEq

/-- Row of the `inventory_logs` table as written by order creation. -/
structure InventoryLogEntry where
  product_id : String
  previous_quantity : Int
  new_quantity : Int
  change_quantity : Int
  created_by : String
deriving Repr, DecidableEq

/-- A notification requested through the backend remote procedures during
order creation: a low-stock alert for a seller about a product, or a
new-order notification for a seller. -/
inductive NotificationReq where
  | lowStock (sellerId productId : String) (currentStock threshold : Int)
  | newOrder (sellerId orderId : String)
deriving Repr, DecidableEq

namespace OrderService

/-- The fixed low-stock threshold of the order-service `createOrder`
(`const threshold = 5`). -/
def lowStockThreshold : Int := 5

/-- Stock handling for one cart item inside the order-service `createOrder`
loop: read the product row (skipping the item when it is missing), write
`max 0 (previous - quantity)` back, append one inventory log entry, and
request a low-stock notification when the new quantity is positive and at
most the threshold.  Returns the updated products table, the log entries
and the notifications this item produced. -/
def processOneItem (db : ProductsDB) (item : CartItem) :
    ProductsDB × List InventoryLogEntry × List NotificationReq :=
  match lookupProduct db item.id with
  | none => (db, [], [])
  | some p =>
    let previousQuantity := p.stock_quantity
    let newQuantity := max 0 (previousQuantity - item.quantity)
    let db2 := updateStock db item.id newQuantity
    let log : InventoryLogEntry :=
      { product_id := item.id, previous_quantity := previousQuantity,
        new_quantity := newQuantity, change_quantity := -item.quantity,
        created_by := p.seller_id }
    let notifs :=
      match lookupProduct db2 item.id with
      | some _ =>
        if 0 < newQuantity ∧ newQuantity ≤ lowStockThreshold then
          [NotificationReq.lowStock p.seller_id item.id newQuantity lowStockThreshold]
        else []
      | none => []
    (db2, [log], notifs)

/-- The per-item stock update loop of the order-service `createOrder`,
folded over the cart items in order. -/
def processStockUpdates (db : ProductsDB) :
    List CartItem → ProductsDB × List InventoryLogEntry × List NotificationReq
  | [] => (db, [], [])
  | item :: rest =>
    let step := processOneItem db item
    let tail := processStockUpdates step.1 rest
    (tail.1, step.2.1 ++ tail.2.1, step.2.2 ++ tail.2.2)

/-- The `Partial<Order>` argument of the order-service `createOrder`, with
the fields the checkout page populates. -/
structure OrderData where
  seller_id : Option String := none
  total_amount : Option Int := none
  payment_method : Option String := none
  payment_status : Option String := none
  shipping_address : Option String := none
  billing_address : Option String := none
  delivery_option : Option String := none
  estimated_delivery : Option Nat := none
  payment_intent_id : Option String := none
deriving Repr, DecidableEq

/-- Everything a successful order-service `createOrder` run writes and
returns: the id handed back to the caller, the inserted order row, the
inserted order-item rows, the products table after the stock decrements,
the inventory log entries and the requested notifications. -/
structure CreateOrderResult where
  orderId : String
  order : OrderRow
  orderItems : List OrderItemRow
  products : ProductsDB
  logs : List InventoryLogEntry
  notifications : List NotificationReq
deriving Repr, DecidableEq

/-- The order-service `createOrder`, modelled on its error-free database
executions: `user` is the authenticated user id (`none` makes the call
return null), `newOrderId` is the id the insert hands back, and the result
collects every row the call writes.  Mirrors the source: status is forced
to `pending`; the payment status defaults to `pending`, is rewritten to
`paid` for a succeeded stripe payment and to `pending` for cash on
delivery; the billing address falls back to the shipping address; missing
payment method, shipping address or billing address throw before the order
insert; order items and stock updates run only for a non-empty cart; a
new-order notification is requested when the order data carries a seller
id. -/
def createOrder (user : Option String) (orderData : OrderData)
    (cartItems : Option (List CartItem)) (db : ProductsDB) (newOrderId : String) :
    Option CreateOrderResult :=
  match user with
  | none => none
  | some uid =>
    let ps0 := orderData.payment_status.getD "pending"
    let billing :=
      match orderData.billing_address with
      | some b => some b
      | none => orderData.shipping_address
    match orderData.payment_method with
    | none => none
    | some pm =>
      match orderData.shipping_address with
      | none => none
      | some shipAddr =>
        match billing with
        | none => none
        | some billAddr =>
          let pm2 := if pm = "stripe" then "Credit Card" else pm
          let ps2 :=
            if pm = "stripe" then (if ps0 = "succeeded" then "paid" else ps0)
            else if pm = "cod" then "pending"
            else ps0
          let order : OrderRow :=
            { buyer_id := uid, seller_id := orderData.seller_id, status := "pending",
              total_amount := orderData.total_amount.getD 0,
              payment_method := pm2, payment_status := some ps2,
              shipping_address := shipAddr, billing_address := billAddr,
              delivery_option := orderData.delivery_option,
              payment_intent_id := orderData.payment_intent_id }
          let sellerNotifs :=
            match orderData.seller_id with
            | some sid => [NotificationReq.newOrder sid newOrderId]
            | none => []
          let itemsList := cartItems.getD []
          if itemsList.isEmpty then
            some { orderId := newOrderId, order := order, orderItems := [],
                   products := db, logs := [], notifications := sellerNotifs }
          else
            let orderItems := itemsList.map (fun item =>
              { order_id := newOrderId, product_id := item.id,
                quantity := item.quantity, unit_price := item.price,
                total_price := item.price * item.quantity : OrderItemRow })
            let stock := processStockUpdates db itemsList
            some { orderId := newOrderId, order := order, orderItems := orderItems,
                   products := stock.1, logs := stock.2.1,
                   notifications := stock.2.2 ++ sellerNotifs }

end OrderService

namespace CartService

/-- What a successful cart-service `createOrder` call writes: the inserted
order row and the inserted order-item rows.  (The seller-customer
relationship upsert is performed after these writes and does not affect
them.) -/
structure CreateOrderResult where
  order : OrderRow
  orderItems : List OrderItemRow
deriving Repr, DecidableEq

/-- The cart-service `createOrder` variant, modelled on its error-free
database executions.  It throws for a signed-out user and for an empty
cart before any write; it computes the total as the item subtotal plus a
hardcoded shipping fee of 150; status is set to `processing`; the payment
status is `pending` for stripe and `awaiting_payment` otherwise; the
seller id of the first item is attached only when it passes the UUID
format validation. -/
def createOrder (user : Option String) (items : List CartItem)
    (shippingAddress billingAddress paymentMethod : String) (newOrderId : String) :
    Except String CreateOrderResult :=
  match user with
  | none => .error "You must be signed in to place an order"
  | some uid =>
    if items.isEmpty then
      .error "Your cart is empty. Please add items before checkout."
    else
      let totalAmount := Cart.subtotal items
      let shippingFee : Int := 150
      let totalWithShipping := totalAmount + shippingFee
      let paymentStatus := if paymentMethod = "stripe" then "pending" else "awaiting_payment"
      let potentialSellerId := (items.head?).map (fun item => item.seller)
      let sellerId :=
        match potentialSellerId with
        | some sid => if isValidUUID sid then some sid else none
        | none => none
      let order : OrderRow :=
        { buyer_id := uid, seller_id := sellerId, status := "processing",
          total_amount := totalWithShipping,
          payment_method := if paymentMethod = "cod" then "Cash on Delivery" else "stripe",
          payment_status := some paymentStatus,
          shipping_address := shippingAddress, billing_address := billingAddress,
          delivery_option := none, payment_intent_id := none }
      let orderItems := items.map (fun item =>
        { order_id := newOrderId, product_id := item.id, quantity := item.quantity,
          unit_price := item.price, total_price := item.price * item.quantity : OrderItemRow })
      .ok { order := order, orderItems := orderItems }

end CartService

namespace StripeService

/-- The amount computed by `createPaymentIntent` in `stripeService.ts`: the
item subtotal plus a hardcoded shipping fee of 150, with no dependence on
the delivery option selected at checkout. -/
def createPaymentIntentAmount (items : List CartItem) : Int :=
  Cart.subtotal items + 150

end StripeService

namespace Checkout

/-- The order data object assembled by `handleSubmit` in `Checkout.tsx` and
passed to the order-service `createOrder`: seller id of the first selected
item, the formatted address as both shipping and billing address, the
chosen payment method, `totalWithShipping` as the total, the selected
delivery option and the estimated delivery date. -/
def checkoutOrderData (items : List CartItem) (sel : String) (today : Nat)
    (pm addr : String) : OrderService.OrderData :=
  { seller_id := ((Cart.selectedItems items).head?).map (fun item => item.seller),
    shipping_address := some addr,
    billing_address := some addr,
    payment_method := some pm,
    total_amount := some (totalWithShipping items sel),
    delivery_option := some sel,
    estimated_delivery := calculateEstimatedDelivery today sel }

/-- The empty-cart guard of `handleSubmit` in `Checkout.tsx`: `createOrder`
is invoked only when the shipping form validates and at least one cart
item is selected; the value passed on is the order data together with the
selected items. -/
def handleSubmitCall (items : List CartItem) (sel : String) (today : Nat)
    (pm addr : String) (shippingValid : Bool) :
    Option (OrderService.OrderData × List CartItem) :=
  if !shippingValid then none
  else if (Cart.selectedItems items).isEmpty then none
  else some (checkoutOrderData items sel today pm addr, Cart.selectedItems items)

end Checkout

namespace OrderCard

/-- The buyer-side view of an order in `OrderCard.tsx`, with the fields the
cancellation handler touches. -/
structure BuyerOrder where
  id : String
  status : String
  total : Int
deriving Repr, DecidableEq

/-- The `canBeCancelled` flag of `OrderCard.tsx`. -/
def canBeCancelled (order : BuyerOrder) : Bool :=
  order.status = "processing"

/-- The `handleCancelOrder` procedure of `OrderCard.tsx`: orders whose
status is not `processing` are rejected with an error toast before any
write, as are cancellations by a signed-out user; otherwise the order
status is updated to `cancelled`.  Returns the resulting order row and
whether a cancellation was performed.  (The source additionally scopes the
update to rows whose `buyer_id` is the signed-in user; the component only
renders orders of that buyer, so the modelled order is the buyer own
row.) -/
def handleCancelOrder (order : BuyerOrder) (signedIn : Bool) : BuyerOrder × Bool :=
  if !(order.status = "processing") then (order, false)
  else if !signedIn then (order, false)
  else ({ order with status := "cancelled" }, true)

end OrderCard

/-- Sum of `total_price` over order item rows, the quantity the
specification compares the order total against. -/
def sumTotalPrice (l : List OrderItemRow) : Int :=
  l.foldl (fun t oi => t + oi.total_price) 0

/-! Concrete inputs used to instantiate the theorems below. -/

/-- A well-formed seller UUID. -/
def demoSeller : String := "123e4567-e89b-12d3-a456-426614174000"

/-- A selected cart item with price 500 and quantity 2, the example of the
specification. -/
def demoCartItem : CartItem :=
  { id := "p1", name := "Woven Basket", price := 500, quantity := 2,
    image := "", seller := demoSeller, selected := true }

/-- A one-item cart holding `demoCartItem`. -/
def demoCart : List CartItem := [demoCartItem]

/-- The product row backing `demoCartItem`, with ample stock. -/
def demoProductRec : ProductRec :=
  { stock_quantity := 10, seller_id := demoSeller, name := "Woven Basket" }

/-- A products table with ample stock for `demoCartItem`. -/
def demoDB : ProductsDB := [("p1", demoProductRec)]

/-- The rows written by the order-service `createOrder` on the demo checkout
order (cash on delivery, Maxim same-day delivery, demo cart). -/
def demoRunResult : OrderService.CreateOrderResult :=
  { orderId := "o1",
    order := { buyer_id := "u", seller_id := some demoSeller, status := "pending",
               total_amount := 1150, payment_method := "cod",
               payment_status := some "pending", shipping_address := "addr",
               billing_address := "addr", delivery_option := some "maxim",
               payment_intent_id := none },
    orderItems := [{ order_id := "o1", product_id := "p1", quantity := 2,
                     unit_price := 500, total_price := 1000 }],
    products := [("p1", { stock_quantity := 8, seller_id := demoSeller,
                          name := "Woven Basket" })],
    logs := [{ product_id := "p1", previous_quantity := 10, new_quantity := 8,
               change_quantity := -2, created_by := demoSeller }],
    notifications := [NotificationReq.newOrder demoSeller "o1"] }

/-- The rows written by the order-service `createOrder` on the minimal
cash-on-delivery order data and the demo cart. -/
def codRunResult : OrderService.CreateOrderResult :=
  { orderId := "o1",
    order := { buyer_id := "u", seller_id := none, status := "pending",
               total_amount := 0, payment_method := "cod",
               payment_status := some "pending", shipping_address := "addr",
               billing_address := "addr", delivery_option := none,
               payment_intent_id := none },
    orderItems := [{ order_id := "o1", product_id := "p1", quantity := 2,
                     unit_price := 500, total_price := 1000 }],
    products := [("p1", { stock_quantity := 8, seller_id := demoSeller,
                          name := "Woven Basket" })],
    logs := [{ product_id := "p1", previous_quantity := 10, new_quantity := 8,
               change_quantity := -2, created_by := demoSeller }],
    notifications := [] }

/-- A products table in which the demo product has stock 2, so that
ordering quantity 2 drives the stock to zero. -/
def lowStockDB : ProductsDB :=
  [("p1", { stock_quantity := 2, seller_id := "s1", name := "Woven Basket" })]

/-- Minimal valid order data for a cash-on-delivery order without seller
attribution. -/
def codOrderData : OrderService.OrderData :=
  { payment_method := some "cod", shipping_address := some "addr" }

/-- A product row with stock 7, so that ordering quantity 2 lands exactly
on the low-stock threshold. -/
def nearLowProductRec : ProductRec :=
  { stock_quantity := 7, seller_id := "s1", name := "Woven Basket" }

/-- A products table holding `nearLowProductRec`. -/
def nearLowDB : ProductsDB := [("p1", nearLowProductRec)]

/-- The rows written by the order-service `createOrder` on the minimal
cash-on-delivery order data, the demo cart and the near-threshold stock:
the decrement lands on stock 5 and a low-stock notification is
requested. -/
def nearLowRunResult : OrderService.CreateOrderResult :=
  { orderId := "o1",
    order := { buyer_id := "u", seller_id := none, status := "pending",
               total_amount := 0, payment_method := "cod",
               payment_status := some "pending", shipping_address := "addr",
               billing_address := "addr", delivery_option := none,
               payment_intent_id := none },
    orderItems := [{ order_id := "o1", product_id := "p1", quantity := 2,
                     unit_price := 500, total_price := 1000 }],
    products := [("p1", { stock_quantity := 5, seller_id := "s1",
                          name := "Woven Basket" })],
    logs := [{ product_id := "p1", previous_quantity := 7, new_quantity := 5,
               change_quantity := -2, created_by := "s1" }],
    notifications := [NotificationReq.lowStock "s1" "p1" 5 5] }

/-- A cart item with quantity 1 used by the cart-invariant theorems. -/
def basketItem : CartItem :=
  { id := "a", name := "Basket", price := 10, quantity := 1,
    image := "", seller := "s", selected := false }

/-- A selected cart item whose seller id fails the UUID format check. -/
def invalidSellerItem : CartItem :=
  { id := "p2", name := "Jar", price := 300, quantity := 1,
    image := "", seller := "seller-name", selected := true }

/-! Helper lemmas about business-day arithmetic. -/

namespace Checkout

/-- Adding `n` business days in the specification sense: the `n`-fold
iterate of the next-business-day step. -/
def plusBusinessDays (today : Nat) (n : Nat) : Nat :=
  Nat.iterate nextBusinessDay n today

theorem isWeekendDay_eq_false_iff (d : Nat) :
    isWeekendDay d = false ↔ d % 7 ≠ 0 ∧ d % 7 ≠ 6 := by
  simp [isWeekendDay]

theorem isWeekendDay_eq_true_iff (d : Nat) :
    isWeekendDay d = true ↔ d % 7 = 0 ∨ d % 7 = 6 := by
  simp [isWeekendDay]

theorem nextBusinessDay_eq_add_one {d : Nat} (h0 : d % 7 ≠ 5) (h1 : d % 7 ≠ 6) :
    nextBusinessDay d = d + 1 := by
  unfold nextBusinessDay
  rw [if_neg h0, if_neg h1]

theorem nextBusinessDay_eq_add_three {d : Nat} (h : d % 7 = 5) :
    nextBusinessDay d = d + 3 := by
  unfold nextBusinessDay
  rw [if_pos h]

theorem nextBusinessDay_eq_add_two {d : Nat} (h : d % 7 = 6) :
    nextBusinessDay d = d + 2 := by
  unfold nextBusinessDay
  rw [if_neg (by omega), if_pos h]

theorem nextBusinessDay_not_weekend (d : Nat) :
    isWeekendDay (nextBusinessDay d) = false := by
  rw [isWeekendDay_eq_false_iff]
  unfold nextBusinessDay
  split
  · omega
  · split
    · omega
    · omega

theorem nextBusinessDay_gt (d : Nat) : d < nextBusinessDay d := by
  unfold nextBusinessDay
  split
  · omega
  · split
    · omega
    · omega

/-- Days strictly between a day and its next business day are weekend days:
the step skips exactly the weekends. -/
theorem nextBusinessDay_skips_weekends (d e : Nat) (h1 : d < e)
    (h2 : e < nextBusinessDay d) : isWeekendDay e = true := by
  rw [isWeekendDay_eq_true_iff]
  unfold nextBusinessDay at h2
  by_cases h5 : d % 7 = 5
  · rw [if_pos h5] at h2
    omega
  · rw [if_neg h5] at h2
    by_cases h6 : d % 7 = 6
    · rw [if_pos h6] at h2
      omega
    · rw [if_neg h6] at h2
      omega

theorem plusBusinessDays_one (d : Nat) : plusBusinessDays d 1 = nextBusinessDay d := rfl

theorem plusBusinessDays_two (d : Nat) :
    plusBusinessDays d 2 = nextBusinessDay (nextBusinessDay d) := rfl

theorem plusBusinessDays_five (d : Nat) :
    plusBusinessDays d 5 =
      nextBusinessDay (nextBusinessDay (nextBusinessDay (nextBusinessDay (nextBusinessDay d)))) :=
  rfl

/-- Closed form for five business days after `d`: the same weekday one week
later, except that a weekend start is pulled to the preceding Friday of
that target week. -/
theorem plusBusinessDays_five_closed (d : Nat) :
    plusBusinessDays d 5 =
      if d % 7 = 6 then d + 6 else if d % 7 = 0 then d + 5 else d + 7 := by
  rw [plusBusinessDays_five]
  have h7 : d % 7 = 0 ∨ d % 7 = 1 ∨ d % 7 = 2 ∨ d % 7 = 3 ∨ d % 7 = 4 ∨
      d % 7 = 5 ∨ d % 7 = 6 := by omega
  rcases h7 with h | h | h | h | h | h | h
  · rw [nextBusinessDay_eq_add_one (show d % 7 ≠ 5 by omega) (show d % 7 ≠ 6 by omega),
      nextBusinessDay_eq_add_one (show (d + 1) % 7 ≠ 5 by omega) (show (d + 1) % 7 ≠ 6 by omega),
      nextBusinessDay_eq_add_one (show (d + 1 + 1) % 7 ≠ 5 by omega)
        (show (d + 1 + 1) % 7 ≠ 6 by omega),
      nextBusinessDay_eq_add_one (show (d + 1 + 1 + 1) % 7 ≠ 5 by omega)
        (show (d + 1 + 1 + 1) % 7 ≠ 6 by omega),
      nextBusinessDay_eq_add_one (show (d + 1 + 1 + 1 + 1) % 7 ≠ 5 by omega)
        (show (d + 1 + 1 + 1 + 1) % 7 ≠ 6 by omega),
      if_neg (show ¬d % 7 = 6 by omega), if_pos h]
  · rw [nextBusinessDay_eq_add_one (show d % 7 ≠ 5 by omega) (show d % 7 ≠ 6 by omega),
      nextBusinessDay_eq_add_one (show (d + 1) % 7 ≠ 5 by omega) (show (d + 1) % 7 ≠ 6 by omega),
      nextBusinessDay_eq_add_one (show (d + 1 + 1) % 7 ≠ 5 by omega)
        (show (d + 1 + 1) % 7 ≠ 6 by omega),
      nextBusinessDay_eq_add_one (show (d + 1 + 1 + 1) % 7 ≠ 5 by omega)
        (show (d + 1 + 1 + 1) % 7 ≠ 6 by omega),
      nextBusinessDay_eq_add_three (show (d + 1 + 1 + 1 + 1) % 7 = 5 by omega),
      if_neg (show ¬d % 7 = 6 by omega), if_neg (show ¬d % 7 = 0 by omega)]
  · rw [nextBusinessDay_eq_add_one (show d % 7 ≠ 5 by omega) (show d % 7 ≠ 6 by omega),
      nextBusinessDay_eq_add_one (show (d + 1) % 7 ≠ 5 by omega) (show (d + 1) % 7 ≠ 6 by omega),
      nextBusinessDay_eq_add_one (show (d + 1 + 1) % 7 ≠ 5 by omega)
        (show (d + 1 + 1) % 7 ≠ 6 by omega),
      nextBusinessDay_eq_add_three (show (d + 1 + 1 + 1) % 7 = 5 by omega),
      nextBusinessDay_eq_add_one (show (d + 1 + 1 + 1 + 3) % 7 ≠ 5 by omega)
        (show (d + 1 + 1 + 1 + 3) % 7 ≠ 6 by omega),
      if_neg (show ¬d % 7 = 6 by omega), if_neg (show ¬d % 7 = 0 by omega)]
  · rw [nextBusinessDay_eq_add_one (show d % 7 ≠ 5 by omega) (show d % 7 ≠ 6 by omega),
      nextBusinessDay_eq_add_one (show (d + 1) % 7 ≠ 5 by omega) (show (d + 1) % 7 ≠ 6 by omega),
      nextBusinessDay_eq_add_three (show (d + 1 + 1) % 7 = 5 by omega),
      nextBusinessDay_eq_add_one (show (d + 1 + 1 + 3) % 7 ≠ 5 by omega)
        (show (d + 1 + 1 + 3) % 7 ≠ 6 by omega),
      nextBusinessDay_eq_add_one (show (d + 1 + 1 + 3 + 1) % 7 ≠ 5 by omega)
        (show (d + 1 + 1 + 3 + 1) % 7 ≠ 6 by omega),
      if_neg (show ¬d % 7 = 6 by omega), if_neg (show ¬d % 7 = 0 by omega)]
  · rw [nextBusinessDay_eq_add_one (show d % 7 ≠ 5 by omega) (show d % 7 ≠ 6 by omega),
      nextBusinessDay_eq_add_three (show (d + 1) % 7 = 5 by omega),
      nextBusinessDay_eq_add_one (show (d + 1 + 3) % 7 ≠ 5 by omega)
        (show (d + 1 + 3) % 7 ≠ 6 by omega),
      nextBusinessDay_eq_add_one (show (d + 1 + 3 + 1) % 7 ≠ 5 by omega)
        (show (d + 1 + 3 + 1) % 7 ≠ 6 by omega),
      nextBusinessDay_eq_add_one (show (d + 1 + 3 + 1 + 1) % 7 ≠ 5 by omega)
        (show (d + 1 + 3 + 1 + 1) % 7 ≠ 6 by omega),
      if_neg (show ¬d % 7 = 6 by omega), if_neg (show ¬d % 7 = 0 by omega)]
  · rw [nextBusinessDay_eq_add_three h,
      nextBusinessDay_eq_add_one (show (d + 3) % 7 ≠ 5 by omega)
        (show (d + 3) % 7 ≠ 6 by omega),
      nextBusinessDay_eq_add_one (show (d + 3 + 1) % 7 ≠ 5 by omega)
        (show (d + 3 + 1) % 7 ≠ 6 by omega),
      nextBusinessDay_eq_add_one (show (d + 3 + 1 + 1) % 7 ≠ 5 by omega)
        (show (d + 3 + 1 + 1) % 7 ≠ 6 by omega),
      nextBusinessDay_eq_add_one (show (d + 3 + 1 + 1 + 1) % 7 ≠ 5 by omega)
        (show (d + 3 + 1 + 1 + 1) % 7 ≠ 6 by omega),
      if_neg (show ¬d % 7 = 6 by omega), if_neg (show ¬d % 7 = 0 by omega)]
  · rw [nextBusinessDay_eq_add_two h,
      nextBusinessDay_eq_add_one (show (d + 2) % 7 ≠ 5 by omega)
        (show (d + 2) % 7 ≠ 6 by omega),
      nextBusinessDay_eq_add_one (show (d + 2 + 1) % 7 ≠ 5 by omega)
        (show (d + 2 + 1) % 7 ≠ 6 by omega),
      nextBusinessDay_eq_add_one (show (d + 2 + 1 + 1) % 7 ≠ 5 by omega)
        (show (d + 2 + 1 + 1) % 7 ≠ 6 by omega),
      nextBusinessDay_eq_add_one (show (d + 2 + 1 + 1 + 1) % 7 ≠ 5 by omega)
        (show (d + 2 + 1 + 1 + 1) % 7 ≠ 6 by omega),
      if_pos h]

/-- The source algorithm agrees with the iterate on one business day. -/
theorem addBusinessDays_one (d : Nat) : addBusinessDays d 1 = plusBusinessDays d 1 := by
  unfold addBusinessDays
  norm_num [nextBusinessDay_not_weekend]
  exact (plusBusinessDays_one d).symm

/-- The source algorithm agrees with the iterate on two business days. -/
theorem addBusinessDays_two (d : Nat) : addBusinessDays d 2 = plusBusinessDays d 2 := by
  unfold addBusinessDays
  norm_num [nextBusinessDay_not_weekend]
  exact (plusBusinessDays_two d).symm

/-- The source algorithm agrees with the iterate on five business days. -/
theorem addBusinessDays_five (d : Nat) : addBusinessDays d 5 = plusBusinessDays d 5 := by
  rw [plusBusinessDays_five_closed]
  unfold addBusinessDays
  norm_num
  by_cases h6 : d % 7 = 6
  · have hw : isWeekendDay d = true := by rw [isWeekendDay_eq_true_iff]; omega
    have hw7 : isWeekendDay (d + 7) = true := by rw [isWeekendDay_eq_true_iff]; omega
    rw [if_pos ⟨hw, hw7⟩, if_pos h6, if_pos h6]
  · by_cases h0 : d % 7 = 0
    · have hw : isWeekendDay d = true := by rw [isWeekendDay_eq_true_iff]; omega
      have hw7 : isWeekendDay (d + 7) = true := by rw [isWeekendDay_eq_true_iff]; omega
      rw [if_pos ⟨hw, hw7⟩, if_neg h6, if_neg h6, if_pos h0, if_pos h0]
      omega
    · have hw : isWeekendDay d = false := by rw [isWeekendDay_eq_false_iff]; omega
      rw [if_neg (by simp [hw]), if_neg h6, if_neg h0]

end Checkout

namespace Cart

theorem quantitiesPositive_iff (items : List CartItem) :
    quantitiesPositive items = true ↔ ∀ item ∈ items, 1 ≤ item.quantity := by
  simp [quantitiesPositive]

/-- Every element of an `addLoop` result is an old item, a fresh item of
quantity 1, or an old item with its quantity bumped by one. -/
theorem addLoop_mem (pid pname : String) (pprice : Int) (pimage sid : String)
    (stock : Int) (items : List CartItem) (x : CartItem)
    (hx : x ∈ addLoop pid pname pprice pimage sid stock items) :
    x ∈ items ∨ x.quantity = 1 ∨ ∃ y ∈ items, x = { y with quantity := y.quantity + 1 } := by
  induction items with
  | nil =>
    simp only [addLoop, List.mem_singleton] at hx
    right; left
    rw [hx]
  | cons a rest ih =>
    simp only [addLoop] at hx
    by_cases ha : a.id = pid
    · rw [if_pos ha] at hx
      rcases List.mem_cons.1 hx with h | h
      · by_cases hq : a.quantity + 1 > stock
        · rw [if_pos hq] at h
          left
          rw [h]
          exact List.mem_cons_self a rest
        · rw [if_neg hq] at h
          right; right
          exact ⟨a, List.mem_cons_self a rest, h⟩
      · left
        exact List.mem_cons_of_mem a h
    · rw [if_neg ha] at hx
      rcases List.mem_cons.1 hx with h | h
      · left
        rw [h]
        exact List.mem_cons_self a rest
      · rcases ih h with h1 | h1 | ⟨y, hy, he⟩
        · exact Or.inl (List.mem_cons_of_mem a h1)
        · exact Or.inr (Or.inl h1)
        · exact Or.inr (Or.inr ⟨y, List.mem_cons_of_mem a hy, he⟩)

/-- When no cart item carries the product id, `addLoop` appends a fresh item
of quantity 1. -/
theorem addLoop_of_not_mem (pid pname : String) (pprice : Int) (pimage sid : String)
    (stock : Int) (items : List CartItem) (hno : ∀ y ∈ items, y.id ≠ pid) :
    addLoop pid pname pprice pimage sid stock items =
      items ++ [{ id := pid, name := pname, price := pprice, quantity := 1,
                  image := pimage, seller := sid, selected := false }] := by
  induction items with
  | nil => rfl
  | cons a rest ih =>
    simp only [addLoop, if_neg (hno a (List.mem_cons_self a rest)), List.cons_append]
    rw [ih (fun y hy => hno y (List.mem_cons_of_mem a hy))]

end Cart

/-- Counterexample to claim C10 as stated: starting from a cart satisfying
the quantity invariant, `updateQuantity` with a positive requested quantity
against a product whose reported stock is 0 clamps the item quantity to 0,
breaking the invariant. -/
theorem claim_C10_counterexample :
    Cart.quantitiesPositive [basketItem] = true ∧
    Cart.quantitiesPositive (Cart.updateQuantity (some 0) "a" 2 [basketItem]) = false := by
  decide

/-- Claim C10 as amended: `addItem` preserves the positive-quantity
invariant and inserts fresh items with quantity 1; `updateQuantity` with a
requested quantity of zero or less removes the item; `removeItem`, the
selection toggles and `clearCart` preserve the invariant; and
`updateQuantity` with a positive requested quantity preserves the
invariant provided the reported stock quantity is at least 1 (the stock
clamping path stores the reported stock, so a reported stock of 0 breaks
the invariant, as the counterexample shows). -/
theorem claim_C10_cart_invariant_amended :
    (∀ db pid pname pprice pimage items, Cart.quantitiesPositive items = true →
        Cart.quantitiesPositive (Cart.addItem db pid pname pprice pimage items) = true) ∧
    (∀ db pid pname pprice pimage items, (∀ y ∈ items, y.id ≠ pid) →
        Cart.addItem db pid pname pprice pimage items = items ∨
        ∃ sid, Cart.addItem db pid pname pprice pimage items =
          items ++ [{ id := pid, name := pname, price := pprice, quantity := 1,
                      image := pimage, seller := sid, selected := false }]) ∧
    (∀ db id q items, q ≤ 0 → Cart.updateQuantity db id q items = Cart.removeItem id items) ∧
    (∀ id items, Cart.quantitiesPositive items = true →
        Cart.quantitiesPositive (Cart.removeItem id items) = true) ∧
    (∀ id q items, Cart.quantitiesPositive items = true →
        Cart.quantitiesPositive (Cart.updateQuantity none id q items) = true) ∧
    (∀ stock id q items, Cart.quantitiesPositive items = true → 1 ≤ q → 1 ≤ stock →
        Cart.quantitiesPositive (Cart.updateQuantity (some stock) id q items) = true) ∧
    (∀ id items, Cart.quantitiesPositive items = true →
        Cart.quantitiesPositive (Cart.toggleItemSelection id items) = true) ∧
    (∀ b items, Cart.quantitiesPositive items = true →
        Cart.quantitiesPositive (Cart.toggleAllSelection b items) = true) ∧
    (∀ items, Cart.quantitiesPositive (Cart.clearCart items) = true) := by
  refine ⟨?_, ?_, ?_, ?_, ?_, ?_, ?_, ?_, ?_⟩
  · intro db pid pname pprice pimage items h
    rw [Cart.quantitiesPositive_iff] at h ⊢
    unfold Cart.addItem
    split
    · exact h
    · split
      · exact h
      · split
        · exact h
        · intro x hx
          rcases Cart.addLoop_mem _ _ _ _ _ _ _ x hx with
            h1 | h1 | ⟨y, hy, he⟩
          · exact h x h1
          · omega
          · have := h y hy
            rw [he]
            simpa using by omega
  · intro db pid pname pprice pimage items hno
    unfold Cart.addItem
    split
    · exact Or.inl rfl
    · split
      · exact Or.inl rfl
      · split
        · exact Or.inl rfl
        · exact Or.inr ⟨_, Cart.addLoop_of_not_mem _ _ _ _ _ _ _ hno⟩
  · intro db id q items hq
    unfold Cart.updateQuantity
    rw [if_pos hq]
  · intro id items h
    rw [Cart.quantitiesPositive_iff] at h ⊢
    intro x hx
    exact h x (List.mem_of_mem_filter hx)
  · intro id q items h
    unfold Cart.updateQuantity
    by_cases hq : q ≤ 0
    · rw [if_pos hq]
      rw [Cart.quantitiesPositive_iff] at h ⊢
      intro x hx
      exact h x (List.mem_of_mem_filter hx)
    · rw [if_neg hq]
      exact h
  · intro stock id q items h hq hs
    unfold Cart.updateQuantity
    rw [if_neg (by omega)]
    dsimp only
    rw [Cart.quantitiesPositive_iff] at h ⊢
    by_cases hgt : q > stock
    · rw [if_pos hgt]
      intro x hx
      rcases List.mem_map.1 hx with ⟨y, hy, he⟩
      by_cases hid : y.id = id
      · rw [if_pos hid] at he
        rw [← he]
        simpa using hs
      · rw [if_neg hid] at he
        rw [← he]
        exact h y hy
    · rw [if_neg hgt]
      intro x hx
      rcases List.mem_map.1 hx with ⟨y, hy, he⟩
      by_cases hid : y.id = id
      · rw [if_pos hid] at he
        rw [← he]
        simpa using hq
      · rw [if_neg hid] at he
        rw [← he]
        exact h y hy
  · intro id items h
    rw [Cart.quantitiesPositive_iff] at h ⊢
    intro x hx
    rcases List.mem_map.1 hx with ⟨y, hy, he⟩
    by_cases hid : y.id = id
    · rw [if_pos hid] at he
      rw [← he]
      exact h y hy
    · rw [if_neg hid] at he
      rw [← he]
      exact h y hy
  · intro b items h
    rw [Cart.quantitiesPositive_iff] at h ⊢
    intro x hx
    rcases List.mem_map.1 hx with ⟨y, hy, he⟩
    rw [← he]
    exact h y hy
  · intro items
    rfl

/-- Witness for the amended C10: updating the demo item to quantity 3 with
stock 5 available keeps every quantity at least 1. -/
theorem claim_C10_cart_invariant_amended_witness :
    Cart.quantitiesPositive (Cart.updateQuantity (some 5) "a" 3 [basketItem]) = true :=
  claim_C10_cart_invariant_amended.2.2.2.2.2.1 5 "a" 3 [basketItem]
    (by decide) (by decide) (by decide)

/-- Claim C8: for every delivery option of the fixed checkout lookup table
(standard, express, and the Maxim same-day option), the delivery fee is
taken from the table (50, 100 and 150 respectively), and the estimated
delivery date is today plus the option maximum business days, where each
business-day step lands on the first non-weekend day strictly after the
current one, skipping exactly the weekend days in between. -/
theorem claim_C8_delivery_fee_and_estimate :
    (Checkout.selectedDeliveryFee "standard" = 50 ∧
     Checkout.selectedDeliveryFee "express" = 100 ∧
     Checkout.selectedDeliveryFee "maxim" = 150) ∧
    (∀ opt ∈ Checkout.deliveryOptions, Checkout.selectedDeliveryFee opt.id = opt.fee) ∧
    (∀ d, Checkout.isWeekendDay (Checkout.nextBusinessDay d) = false ∧
      d < Checkout.nextBusinessDay d ∧
      ∀ e, d < e → e < Checkout.nextBusinessDay d → Checkout.isWeekendDay e = true) ∧
    ∀ today, ∀ opt ∈ Checkout.deliveryOptions,
      Checkout.calculateEstimatedDelivery today opt.id =
        some (Checkout.plusBusinessDays today opt.maxDays) := by
  refine ⟨⟨by decide, by decide, by decide⟩, ?_, ?_, ?_⟩
  · intro opt hopt
    fin_cases hopt <;> decide
  · intro d
    exact ⟨Checkout.nextBusinessDay_not_weekend d, Checkout.nextBusinessDay_gt d,
      fun e h1 h2 => Checkout.nextBusinessDay_skips_weekends d e h1 h2⟩
  · intro today opt hopt
    fin_cases hopt
    · show some (Checkout.addBusinessDays today 5) = some (Checkout.plusBusinessDays today 5)
      rw [Checkout.addBusinessDays_five]
    · show some (Checkout.addBusinessDays today 2) = some (Checkout.plusBusinessDays today 2)
      rw [Checkout.addBusinessDays_two]
    · show some (Checkout.addBusinessDays today 1) = some (Checkout.plusBusinessDays today 1)
      rw [Checkout.addBusinessDays_one]

/-- Witness for C8: standard delivery from day 4 (a Thursday) is estimated
at five business-day steps later. -/
theorem claim_C8_delivery_fee_and_estimate_witness :
    Checkout.calculateEstimatedDelivery 4 "standard" =
      some (Checkout.plusBusinessDays 4 5) :=
  claim_C8_delivery_fee_and_estimate.2.2.2 4
    { id := "standard", name := "Standard Delivery", description := "3-5 business days",
      fee := 50, minDays := 3, maxDays := 5 } (by decide)

/-- Claim C4: the cancellation handler accepts a cancellation only when the
order status is `processing`; on an order in any other status it rejects
the attempt and leaves the order unchanged, and the `canBeCancelled` flag
agrees with the `processing` test. -/
theorem claim_C4_cancel_only_from_processing :
    ∀ (order : OrderCard.BuyerOrder) (signedIn : Bool),
      ((OrderCard.handleCancelOrder order signedIn).2 = true → order.status = "processing") ∧
      (order.status ≠ "processing" →
        OrderCard.handleCancelOrder order signedIn = (order, false)) ∧
      (OrderCard.canBeCancelled order = true ↔ order.status = "processing") := by
  intro order signedIn
  unfold OrderCard.handleCancelOrder OrderCard.canBeCancelled
  by_cases h : order.status = "processing"
  · by_cases hs : signedIn <;> simp [h, hs]
  · simp [h]

/-- Witness for C4: a shipped order is not cancellable and is left
unchanged. -/
theorem claim_C4_cancel_only_from_processing_witness :
    OrderCard.handleCancelOrder { id := "o1", status := "shipped", total := 100 } true =
      ({ id := "o1", status := "shipped", total := 100 }, false) :=
  ((claim_C4_cancel_only_from_processing
    { id := "o1", status := "shipped", total := 100 } true).2.1) (by decide)

/-- Claim C9: `createPaymentIntent` authorizes the item subtotal plus a
fixed shipping fee of 150, with no dependence on the delivery option, so
whenever the option selected at checkout has fee 50 or 100 the authorized
amount differs from the order total. -/
theorem claim_C9_payment_intent_fixed_fee :
    ∀ (items : List CartItem) (sel : String),
      StripeService.createPaymentIntentAmount (Cart.selectedItems items) =
        Cart.selectedItemsTotal items + 150 ∧
      (Checkout.selectedDeliveryFee sel = 50 ∨ Checkout.selectedDeliveryFee sel = 100 →
        StripeService.createPaymentIntentAmount (Cart.selectedItems items) ≠
          Checkout.totalWithShipping items sel) := by
  intro items sel
  constructor
  · rfl
  · intro h
    unfold Checkout.totalWithShipping StripeService.createPaymentIntentAmount
    have hs : Cart.selectedItemsTotal items = Cart.subtotal (Cart.selectedItems items) := rfl
    rcases h with h | h <;> rw [h] <;> omega

/-- Witness for C9: with standard delivery selected (fee 50) the payment
intent amount for the demo cart differs from the order total. -/
theorem claim_C9_payment_intent_fixed_fee_witness :
    StripeService.createPaymentIntentAmount (Cart.selectedItems demoCart) ≠
      Checkout.totalWithShipping demoCart "standard" :=
  (claim_C9_payment_intent_fixed_fee demoCart "standard").2 (Or.inl (by decide))

/-- Claim C6: when the seller id carried by the first cart item fails the
UUID format validation, the cart-service `createOrder` still succeeds and
the inserted order row carries no seller attribution. -/
theorem claim_C6_invalid_seller_silently_dropped :
    ∀ (user : String) (item0 : CartItem) (rest : List CartItem) (ship bill pm oid : String),
      isValidUUID item0.seller = false →
      ∃ r, CartService.createOrder (some user) (item0 :: rest) ship bill pm oid = .ok r ∧
        r.order.seller_id = none := by
  intro user item0 rest ship bill pm oid hinv
  refine ⟨_, rfl, ?_⟩
  show (if isValidUUID item0.seller = true then some item0.seller else none) = none
  rw [hinv]
  simp

/-- Witness for C6: an order whose only item names the seller by business
name rather than by UUID is created with `seller_id` unset. -/
theorem claim_C6_invalid_seller_silently_dropped_witness :
    ∃ r, CartService.createOrder (some "u") [invalidSellerItem] "a" "a" "cod" "o1" = .ok r ∧
      r.order.seller_id = none :=
  claim_C6_invalid_seller_silently_dropped "u" invalidSellerItem [] "a" "a" "cod" "o1"
    (by decide)

/-! Helper lemmas about the products table and the stock update loop. -/

theorem lookupProduct_updateStock_eq (db : ProductsDB) (id : String) (q : Int) :
    lookupProduct (updateStock db id q) id =
      (lookupProduct db id).map (fun p => { p with stock_quantity := q }) := by
  induction db with
  | nil => rfl
  | cons a rest ih =>
    by_cases h : a.fst = id
    · unfold lookupProduct updateStock
      rw [List.map_cons, if_pos h,
        List.find?_cons_of_pos _ (by simp [h]), List.find?_cons_of_pos _ (by simp [h])]
      rfl
    · unfold lookupProduct updateStock
      rw [List.map_cons, if_neg h,
        List.find?_cons_of_neg _ (by simp [h]), List.find?_cons_of_neg _ (by simp [h])]
      exact ih

theorem lookupProduct_updateStock_ne (db : ProductsDB) (id id2 : String) (q : Int)
    (h : id2 ≠ id) :
    lookupProduct (updateStock db id q) id2 = lookupProduct db id2 := by
  induction db with
  | nil => rfl
  | cons a rest ih =>
    by_cases ha : a.fst = id
    · unfold lookupProduct updateStock
      rw [List.map_cons, if_pos ha,
        List.find?_cons_of_neg _ (by simp [ha]; exact fun he => h he.symm),
        List.find?_cons_of_neg _ (by simp [ha]; exact fun he => h he.symm)]
      exact ih
    · by_cases ha2 : a.fst = id2
      · unfold lookupProduct updateStock
        rw [List.map_cons, if_neg ha,
          List.find?_cons_of_pos _ (by simp [ha2]), List.find?_cons_of_pos _ (by simp [ha2])]
      · unfold lookupProduct updateStock
        rw [List.map_cons, if_neg ha,
          List.find?_cons_of_neg _ (by simp [ha2]), List.find?_cons_of_neg _ (by simp [ha2])]
        exact ih

namespace OrderService

/-- When the product row is found, one loop iteration writes the clamped
stock, exactly one log entry, and the low-stock notification exactly when
the new quantity is positive and at most the threshold. -/
theorem processOneItem_of_found (db : ProductsDB) (item : CartItem) (p : ProductRec)
    (h : lookupProduct db item.id = some p) :
    processOneItem db item =
      (updateStock db item.id (max 0 (p.stock_quantity - item.quantity)),
       [{ product_id := item.id, previous_quantity := p.stock_quantity,
          new_quantity := max 0 (p.stock_quantity - item.quantity),
          change_quantity := -item.quantity, created_by := p.seller_id }],
       if 0 < max 0 (p.stock_quantity - item.quantity) ∧
           max 0 (p.stock_quantity - item.quantity) ≤ lowStockThreshold then
         [NotificationReq.lowStock p.seller_id item.id
            (max 0 (p.stock_quantity - item.quantity)) lowStockThreshold]
       else []) := by
  unfold processOneItem
  rw [h]
  dsimp only
  rw [lookupProduct_updateStock_eq, h]
  rfl

/-- When the product row is missing, one loop iteration writes nothing. -/
theorem processOneItem_of_missing (db : ProductsDB) (item : CartItem)
    (h : lookupProduct db item.id = none) :
    processOneItem db item = (db, [], []) := by
  unfold processOneItem
  rw [h]

/-- One loop iteration does not change products other than its own. -/
theorem processOneItem_lookup_ne (db : ProductsDB) (item : CartItem) (pid : String)
    (h : pid ≠ item.id) :
    lookupProduct (processOneItem db item).1 pid = lookupProduct db pid := by
  cases hl : lookupProduct db item.id with
  | none => rw [processOneItem_of_missing db item hl]
  | some p =>
    rw [processOneItem_of_found db item p hl]
    exact lookupProduct_updateStock_ne db item.id pid _ h

/-- Every log entry of one loop iteration names its own product. -/
theorem processOneItem_logs_pid (db : ProductsDB) (item : CartItem) :
    ∀ l ∈ (processOneItem db item).2.1, l.product_id = item.id := by
  cases hl : lookupProduct db item.id with
  | none => rw [processOneItem_of_missing db item hl]; intro l hl2; cases hl2
  | some p =>
    rw [processOneItem_of_found db item p hl]
    intro l hl2
    rw [List.mem_singleton] at hl2
    rw [hl2]

/-- Every notification of one loop iteration is a low-stock notification
for its own product. -/
theorem processOneItem_notifs_shape (db : ProductsDB) (item : CartItem) :
    ∀ n ∈ (processOneItem db item).2.2,
      ∃ s c t, n = NotificationReq.lowStock s item.id c t := by
  cases hl : lookupProduct db item.id with
  | none => rw [processOneItem_of_missing db item hl]; intro n hn; cases hn
  | some p =>
    rw [processOneItem_of_found db item p hl]
    intro n hn
    by_cases hc : 0 < max 0 (p.stock_quantity - item.quantity) ∧
        max 0 (p.stock_quantity - item.quantity) ≤ lowStockThreshold
    · rw [if_pos hc, List.mem_singleton] at hn
      exact ⟨_, _, _, hn⟩
    · rw [if_neg hc] at hn
      cases hn

/-- The stock update loop leaves products outside the order untouched and
writes no log or low-stock notification for them. -/
theorem processStockUpdates_not_touched (pid : String) :
    ∀ (items : List CartItem), (∀ item ∈ items, item.id ≠ pid) → ∀ db : ProductsDB,
      lookupProduct (processStockUpdates db items).1 pid = lookupProduct db pid ∧
      (∀ l ∈ (processStockUpdates db items).2.1, l.product_id ≠ pid) ∧
      (∀ s c t, NotificationReq.lowStock s pid c t ∉ (processStockUpdates db items).2.2) := by
  intro items
  induction items with
  | nil =>
    intro _ db
    refine ⟨rfl, ?_, ?_⟩
    · intro l hl; cases hl
    · intro s c t hn; cases hn
  | cons j rest ih =>
    intro h db
    have hj : j.id ≠ pid := h j (List.mem_cons_self j rest)
    have hrest : ∀ item ∈ rest, item.id ≠ pid :=
      fun i hi => h i (List.mem_cons_of_mem j hi)
    obtain ⟨ih1, ih2, ih3⟩ := ih hrest (processOneItem db j).1
    refine ⟨?_, ?_, ?_⟩
    · show lookupProduct (processStockUpdates (processOneItem db j).1 rest).1 pid = _
      rw [ih1, processOneItem_lookup_ne db j pid (fun he => hj he.symm)]
    · show ∀ l ∈ (processOneItem db j).2.1 ++
          (processStockUpdates (processOneItem db j).1 rest).2.1, l.product_id ≠ pid
      intro l hl
      rcases List.mem_append.1 hl with hl | hl
      · rw [processOneItem_logs_pid db j l hl]
        exact hj
      · exact ih2 l hl
    · show ∀ s c t, NotificationReq.lowStock s pid c t ∉ (processOneItem db j).2.2 ++
          (processStockUpdates (processOneItem db j).1 rest).2.2
      intro s c t hn
      rcases List.mem_append.1 hn with hn | hn
      · obtain ⟨s2, c2, t2, he⟩ := processOneItem_notifs_shape db j _ hn
        exact hj (by injection he with h1 h2; exact h2.symm) |>.elim
      · exact ih3 s c t hn

/-- Main lemma about the stock update loop: for a cart item whose product
row is present (the product ids of the cart being pairwise distinct), the
loop leaves the product at `max 0 (previous - quantity)`, produces exactly
one log entry for it recording previous quantity, new quantity and the
negated ordered quantity, and requests the low-stock notification for it
exactly when the new quantity is positive and at most the threshold. -/
theorem processStockUpdates_found (item : CartItem) (p : ProductRec) :
    ∀ (items : List CartItem), item ∈ items →
      (items.map (fun i => i.id)).Nodup →
      ∀ db : ProductsDB, lookupProduct db item.id = some p →
      lookupProduct (processStockUpdates db items).1 item.id =
        some { p with stock_quantity := max 0 (p.stock_quantity - item.quantity) } ∧
      (processStockUpdates db items).2.1.filter (fun l => l.product_id = item.id) =
        [{ product_id := item.id, previous_quantity := p.stock_quantity,
           new_quantity := max 0 (p.stock_quantity - item.quantity),
           change_quantity := -item.quantity, created_by := p.seller_id }] ∧
      (NotificationReq.lowStock p.seller_id item.id
          (max 0 (p.stock_quantity - item.quantity)) lowStockThreshold ∈
          (processStockUpdates db items).2.2 ↔
        0 < max 0 (p.stock_quantity - item.quantity) ∧
          max 0 (p.stock_quantity - item.quantity) ≤ lowStockThreshold) := by
  intro items
  induction items with
  | nil => intro hmem; cases hmem
  | cons j rest ih =>
    intro hmem hnodup db hfind
    rw [List.map_cons, List.nodup_cons] at hnodup
    obtain ⟨hjid, hnodup_rest⟩ := hnodup
    rcases List.mem_cons.1 hmem with heq | hmem_rest
    · subst heq
      have hstep := processOneItem_of_found db item p hfind
      have hstepdb : (processOneItem db item).1 =
          updateStock db item.id (max 0 (p.stock_quantity - item.quantity)) := by rw [hstep]
      have hstep1 : (processOneItem db item).2.1 =
          [{ product_id := item.id, previous_quantity := p.stock_quantity,
             new_quantity := max 0 (p.stock_quantity - item.quantity),
             change_quantity := -item.quantity, created_by := p.seller_id }] := by rw [hstep]
      have hstep2 : (processOneItem db item).2.2 =
          (if 0 < max 0 (p.stock_quantity - item.quantity) ∧
              max 0 (p.stock_quantity - item.quantity) ≤ lowStockThreshold then
            [NotificationReq.lowStock p.seller_id item.id
              (max 0 (p.stock_quantity - item.quantity)) lowStockThreshold]
          else []) := by rw [hstep]
      have hrest_ne : ∀ i ∈ rest, i.id ≠ item.id := by
        intro i hi he
        exact hjid (he ▸ List.mem_map_of_mem (fun x => x.id) hi)
      obtain ⟨ht1, ht2, ht3⟩ :=
        processStockUpdates_not_touched item.id rest hrest_ne (processOneItem db item).1
      refine ⟨?_, ?_, ?_⟩
      · show lookupProduct (processStockUpdates (processOneItem db item).1 rest).1 item.id = _
        rw [ht1, hstepdb, lookupProduct_updateStock_eq, hfind]
        rfl
      · show ((processOneItem db item).2.1 ++
            (processStockUpdates (processOneItem db item).1 rest).2.1).filter
            (fun l => l.product_id = item.id) = _
        have h2 : ((processStockUpdates (processOneItem db item).1 rest).2.1).filter
            (fun l => l.product_id = item.id) = [] := by
          rw [List.filter_eq_nil_iff]
          intro l hl
          simpa using ht2 l hl
        rw [List.filter_append, h2, hstep1]
        simp
      · show NotificationReq.lowStock p.seller_id item.id _ lowStockThreshold ∈
            (processOneItem db item).2.2 ++
            (processStockUpdates (processOneItem db item).1 rest).2.2 ↔ _
        rw [List.mem_append, hstep2]
        constructor
        · intro hmem2
          rcases hmem2 with hmem2 | hmem2
          · by_cases hc : 0 < max 0 (p.stock_quantity - item.quantity) ∧
                max 0 (p.stock_quantity - item.quantity) ≤ lowStockThreshold
            · exact hc
            · rw [if_neg hc] at hmem2
              cases hmem2
          · exact absurd hmem2 (ht3 _ _ _)
        · intro hc
          left
          rw [if_pos hc]
          exact List.mem_singleton_self _
    · have hne : item.id ≠ j.id := by
        intro he
        exact hjid (he ▸ List.mem_map_of_mem (fun x => x.id) hmem_rest)
      have hfind2 : lookupProduct (processOneItem db j).1 item.id = some p := by
        rw [processOneItem_lookup_ne db j item.id hne, hfind]
      obtain ⟨ih1, ih2, ih3⟩ := ih hmem_rest hnodup_rest (processOneItem db j).1 hfind2
      refine ⟨?_, ?_, ?_⟩
      · exact ih1
      · show ((processOneItem db j).2.1 ++
            (processStockUpdates (processOneItem db j).1 rest).2.1).filter
            (fun l => l.product_id = item.id) = _
        rw [List.filter_append]
        have h1 : ((processOneItem db j).2.1).filter (fun l => l.product_id = item.id) = [] := by
          rw [List.filter_eq_nil_iff]
          intro l hl
          rw [processOneItem_logs_pid db j l hl]
          simpa using fun he => hne he.symm
        rw [h1, ih2]
        rfl
      · show NotificationReq.lowStock p.seller_id item.id _ lowStockThreshold ∈
            (processOneItem db j).2.2 ++
            (processStockUpdates (processOneItem db j).1 rest).2.2 ↔ _
        rw [List.mem_append]
        constructor
        · intro hmem2
          rcases hmem2 with hmem2 | hmem2
          · obtain ⟨s2, c2, t2, he⟩ := processOneItem_notifs_shape db j _ hmem2
            injection he with hs hid hc ht
            exact absurd hid hne
          · exact ih3.1 hmem2
        · intro hc
          exact Or.inr (ih3.2 hc)

/-- Destructuring of a successful order-service `createOrder` run: the
argument validation that must have passed, the inserted order row fields,
and the rows written in the empty-cart and non-empty-cart branches. -/
theorem createOrder_run (user : String) (od : OrderData) (cartItems : Option (List CartItem))
    (db : ProductsDB) (oid : String) (r : CreateOrderResult)
    (h : createOrder (some user) od cartItems db oid = some r) :
    ∃ pm, od.payment_method = some pm ∧
      r.orderId = oid ∧
      r.order.status = "pending" ∧
      r.order.buyer_id = user ∧
      r.order.seller_id = od.seller_id ∧
      r.order.total_amount = od.total_amount.getD 0 ∧
      r.order.payment_method = (if pm = "stripe" then "Credit Card" else pm) ∧
      r.order.payment_status = some
        (if pm = "stripe" then
          (if od.payment_status.getD "pending" = "succeeded" then "paid"
           else od.payment_status.getD "pending")
         else if pm = "cod" then "pending" else od.payment_status.getD "pending") ∧
      ((cartItems.getD []).isEmpty = true →
        r.orderItems = [] ∧ r.products = db ∧ r.logs = [] ∧
        r.notifications =
          (match od.seller_id with
           | some sid => [NotificationReq.newOrder sid oid]
           | none => [])) ∧
      ((cartItems.getD []).isEmpty = false →
        r.orderItems = (cartItems.getD []).map (fun item =>
          { order_id := oid, product_id := item.id, quantity := item.quantity,
            unit_price := item.price, total_price := item.price * item.quantity }) ∧
        r.products = (processStockUpdates db (cartItems.getD [])).1 ∧
        r.logs = (processStockUpdates db (cartItems.getD [])).2.1 ∧
        r.notifications = (processStockUpdates db (cartItems.getD [])).2.2 ++
          (match od.seller_id with
           | some sid => [NotificationReq.newOrder sid oid]
           | none => [])) := by
  unfold createOrder at h
  cases hpm : od.payment_method with
  | none =>
    rw [hpm] at h
    simp at h
  | some pm =>
    rw [hpm] at h
    cases hship : od.shipping_address with
    | none =>
      rw [hship] at h
      simp at h
    | some shipAddr =>
      rw [hship] at h
      refine ⟨pm, rfl, ?_⟩
      cases hbill : od.billing_address with
      | none =>
        rw [hbill] at h
        dsimp only at h
        by_cases hemp : (cartItems.getD []).isEmpty = true
        · rw [if_pos hemp] at h
          injection h with h2
          subst h2
          refine ⟨rfl, rfl, rfl, rfl, rfl, rfl, rfl, ?_, ?_⟩
          · intro _
            exact ⟨rfl, rfl, rfl, rfl⟩
          · intro hfalse
            rw [hemp] at hfalse
            cases hfalse
        · rw [if_neg hemp] at h
          injection h with h2
          subst h2
          refine ⟨rfl, rfl, rfl, rfl, rfl, rfl, rfl, ?_, ?_⟩
          · intro htrue
            exact absurd htrue hemp
          · intro _
            exact ⟨rfl, rfl, rfl, rfl⟩
      | some billAddr =>
        rw [hbill] at h
        dsimp only at h
        by_cases hemp : (cartItems.getD []).isEmpty = true
        · rw [if_pos hemp] at h
          injection h with h2
          subst h2
          refine ⟨rfl, rfl, rfl, rfl, rfl, rfl, rfl, ?_, ?_⟩
          · intro _
            exact ⟨rfl, rfl, rfl, rfl⟩
          · intro hfalse
            rw [hemp] at hfalse
            cases hfalse
        · rw [if_neg hemp] at h
          injection h with h2
          subst h2
          refine ⟨rfl, rfl, rfl, rfl, rfl, rfl, rfl, ?_, ?_⟩
          · intro htrue
            exact absurd htrue hemp
          · intro _
            exact ⟨rfl, rfl, rfl, rfl⟩

/-- The seller notification list of `createOrder` never contains a
low-stock notification. -/
theorem lowStock_not_mem_sellerNotifs (sid : Option String) (oid : String)
    (s pid : String) (c t : Int) :
    NotificationReq.lowStock s pid c t ∉
      (match sid with
       | some sid2 => [NotificationReq.newOrder sid2 oid]
       | none => ([] : List NotificationReq)) := by
  cases sid with
  | none => intro hn; cases hn
  | some sid2 =>
    intro hn
    rw [List.mem_singleton] at hn
    cases hn

end OrderService

/-- Folding the order total over mapped order item rows gives the cart
subtotal. -/
theorem sumTotalPrice_map (oid : String) (l : List CartItem) :
    sumTotalPrice (l.map (fun item =>
      { order_id := oid, product_id := item.id, quantity := item.quantity,
        unit_price := item.price, total_price := item.price * item.quantity : OrderItemRow })) =
      Cart.subtotal l := by
  unfold sumTotalPrice Cart.subtotal
  rw [List.foldl_map]

/-- Claim C1: for every order the checkout page successfully places through
the order-service `createOrder`, the order total equals the sum of the
`total_price` of its order items (each the unit price times the quantity of
the corresponding cart item) plus the fee of the selected delivery
option. -/
theorem claim_C1_order_total :
    ∀ (items : List CartItem) (sel : String) (today : Nat) (pm addr user oid : String)
      (db : ProductsDB) (r : OrderService.CreateOrderResult),
      OrderService.createOrder (some user) (Checkout.checkoutOrderData items sel today pm addr)
        (some (Cart.selectedItems items)) db oid = some r →
      r.order.total_amount = sumTotalPrice r.orderItems + Checkout.selectedDeliveryFee sel ∧
      ∀ oi ∈ r.orderItems, oi.total_price = oi.unit_price * oi.quantity := by
  intro items sel today pm addr user oid db r h
  obtain ⟨pm2, hpm, _, _, _, _, htotal, _, _, hemp, hnon⟩ :=
    OrderService.createOrder_run user _ _ db oid r h
  have htot2 : r.order.total_amount = Checkout.totalWithShipping items sel := htotal
  cases hsel : Cart.selectedItems items with
  | nil =>
    obtain ⟨hoi, _, _, _⟩ := hemp (by simp [hsel])
    constructor
    · rw [hoi, htot2]
      show Cart.subtotal (Cart.selectedItems items) + _ = _
      rw [hsel]
      rfl
    · intro oi hoi2
      rw [hoi] at hoi2
      cases hoi2
  | cons a rest =>
    obtain ⟨hoi, _, _, _⟩ := hnon (by simp [hsel])
    simp only [Option.getD_some] at hoi
    constructor
    · rw [hoi, sumTotalPrice_map]
      exact htot2
    · intro oi hoi2
      rw [hoi] at hoi2
      rcases List.mem_map.1 hoi2 with ⟨y, _, he⟩
      rw [← he]

/-- Witness for C1: the demo checkout (one selected item of price 500 and
quantity 2, Maxim same-day delivery with fee 150) produces the order total
1150, the item sum plus the selected fee. -/
theorem claim_C1_order_total_witness :
    (demoRunResult.order.total_amount =
      sumTotalPrice demoRunResult.orderItems + Checkout.selectedDeliveryFee "maxim") ∧
    demoRunResult.order.total_amount = 1150 :=
  ⟨(claim_C1_order_total demoCart "maxim" 0 "cod" "addr" "u" "o1" demoDB demoRunResult
      (by decide)).1, by decide⟩

/-- Claim C2: for every product of the order that exists in the products
table (cart product ids being pairwise distinct), a successful
order-service `createOrder` leaves its stock at
`max 0 (previous - ordered quantity)` and writes exactly one inventory log
entry for it, recording the previous quantity, the new quantity and the
negated ordered quantity. -/
theorem claim_C2_stock_decrement_and_log :
    ∀ (user : String) (od : OrderService.OrderData) (items : List CartItem)
      (db : ProductsDB) (oid : String) (r : OrderService.CreateOrderResult)
      (item : CartItem) (p : ProductRec),
      OrderService.createOrder (some user) od (some items) db oid = some r →
      item ∈ items →
      (items.map (fun i => i.id)).Nodup →
      lookupProduct db item.id = some p →
      lookupProduct r.products item.id =
        some { p with stock_quantity := max 0 (p.stock_quantity - item.quantity) } ∧
      r.logs.filter (fun l => l.product_id = item.id) =
        [{ product_id := item.id, previous_quantity := p.stock_quantity,
           new_quantity := max 0 (p.stock_quantity - item.quantity),
           change_quantity := -item.quantity, created_by := p.seller_id }] := by
  intro user od items db oid r item p h hmem hnodup hfind
  obtain ⟨pm, _, _, _, _, _, _, _, _, _, hnon⟩ :=
    OrderService.createOrder_run user _ _ db oid r h
  have hne : ((some items : Option (List CartItem)).getD []).isEmpty = false := by
    cases items with
    | nil => cases hmem
    | cons a rest => rfl
  obtain ⟨_, hprod, hlogs, _⟩ := hnon hne
  simp only [Option.getD_some] at hprod hlogs
  rw [hprod, hlogs]
  have hmain := OrderService.processStockUpdates_found item p items hmem hnodup db hfind
  exact ⟨hmain.1, hmain.2.1⟩

/-- Witness for C2: ordering quantity 2 of the demo product with stock 10
leaves stock 8 and exactly one log entry recording 10, 8 and change -2. -/
theorem claim_C2_stock_decrement_and_log_witness :
    lookupProduct codRunResult.products demoCartItem.id =
      some { demoProductRec with
             stock_quantity := max 0 (demoProductRec.stock_quantity - demoCartItem.quantity) } ∧
    codRunResult.logs.filter (fun l => l.product_id = demoCartItem.id) =
      [{ product_id := demoCartItem.id, previous_quantity := demoProductRec.stock_quantity,
         new_quantity := max 0 (demoProductRec.stock_quantity - demoCartItem.quantity),
         change_quantity := -demoCartItem.quantity, created_by := demoProductRec.seller_id }] :=
  claim_C2_stock_decrement_and_log "u" codOrderData demoCart demoDB "o1" codRunResult
    demoCartItem demoProductRec (by decide) (by decide) (by decide) (by decide)

/-- Claim C5: every successful order-service `createOrder` run inserts the
order row with initial status `pending`, derives the payment status from
the payment method (for cash on delivery it is `pending`; for a card
payment the method is recorded as `Credit Card` and a succeeded payment is
recorded as `paid`, any other incoming status passing through with default
`pending`), and returns the id of the newly created order. -/
theorem claim_C5_order_writer_contract :
    ∀ (user : String) (od : OrderService.OrderData) (ci : Option (List CartItem))
      (db : ProductsDB) (oid : String) (r : OrderService.CreateOrderResult),
      OrderService.createOrder (some user) od ci db oid = some r →
      r.order.status = "pending" ∧
      r.orderId = oid ∧
      (od.payment_method = some "cod" →
        r.order.payment_status = some "pending" ∧ r.order.payment_method = "cod") ∧
      (od.payment_method = some "stripe" →
        r.order.payment_method = "Credit Card" ∧
        r.order.payment_status = some
          (if od.payment_status.getD "pending" = "succeeded" then "paid"
           else od.payment_status.getD "pending")) := by
  intro user od ci db oid r h
  obtain ⟨pm, hpm, hid, hstatus, _, _, _, hpmeth, hps, _, _⟩ :=
    OrderService.createOrder_run user _ _ db oid r h
  refine ⟨hstatus, hid, ?_, ?_⟩
  · intro hcod
    rw [hpm] at hcod
    injection hcod with he
    subst he
    rw [hps, hpmeth,
      if_neg (by decide : ¬("cod" : String) = "stripe"),
      if_pos (rfl : ("cod" : String) = "cod")]
    exact ⟨rfl, rfl⟩
  · intro hstripe
    rw [hpm] at hstripe
    injection hstripe with he
    subst he
    rw [hps, hpmeth, if_pos (rfl : ("stripe" : String) = "stripe")]
    exact ⟨rfl, rfl⟩

/-- Witness for C5: the demo cash-on-delivery run inserts a pending order
with payment status `pending` and returns the fresh id. -/
theorem claim_C5_order_writer_contract_witness :
    codRunResult.order.status = "pending" ∧
    codRunResult.orderId = "o1" ∧
    codRunResult.order.payment_status = some "pending" :=
  ⟨(claim_C5_order_writer_contract "u" codOrderData (some demoCart) demoDB "o1" codRunResult
      (by decide)).1,
   (claim_C5_order_writer_contract "u" codOrderData (some demoCart) demoDB "o1" codRunResult
      (by decide)).2.1,
   ((claim_C5_order_writer_contract "u" codOrderData (some demoCart) demoDB "o1" codRunResult
      (by decide)).2.2.1 rfl).1⟩

/-- Counterexample to claim C7 as stated: driving the demo product from
stock 2 to stock 0 leaves the new quantity at or below the threshold 5,
yet the successful order run requests no notification at all, because the
source gates the low-stock notification on `newQuantity > 0`. -/
theorem claim_C7_counterexample :
    (OrderService.createOrder (some "u") codOrderData (some demoCart) lowStockDB "o1").map
        (fun r => (r.notifications, lookupProduct r.products "p1")) =
      some ([], some { stock_quantity := 0, seller_id := "s1",
                       name := "Woven Basket" }) ∧
    (0 : Int) ≤ OrderService.lowStockThreshold := by
  exact ⟨by decide, by decide⟩

/-- Claim C7 as amended: for every cart item whose product row exists (cart
product ids being pairwise distinct), a successful order-service
`createOrder` requests the low-stock notification for the product seller
exactly when the new stock quantity is strictly positive and at most the
fixed threshold 5; at or below the threshold but not positive (that is, at
exactly 0) no notification is requested. -/
theorem claim_C7_low_stock_notification_amended :
    ∀ (user : String) (od : OrderService.OrderData) (items : List CartItem)
      (db : ProductsDB) (oid : String) (r : OrderService.CreateOrderResult)
      (item : CartItem) (p : ProductRec),
      OrderService.createOrder (some user) od (some items) db oid = some r →
      item ∈ items →
      (items.map (fun i => i.id)).Nodup →
      lookupProduct db item.id = some p →
      (NotificationReq.lowStock p.seller_id item.id
          (max 0 (p.stock_quantity - item.quantity)) OrderService.lowStockThreshold ∈
          r.notifications ↔
        0 < max 0 (p.stock_quantity - item.quantity) ∧
          max 0 (p.stock_quantity - item.quantity) ≤ OrderService.lowStockThreshold) := by
  intro user od items db oid r item p h hmem hnodup hfind
  obtain ⟨pm, _, _, _, _, _, _, _, _, _, hnon⟩ :=
    OrderService.createOrder_run user _ _ db oid r h
  have hne : ((some items : Option (List CartItem)).getD []).isEmpty = false := by
    cases items with
    | nil => cases hmem
    | cons a rest => rfl
  obtain ⟨_, _, _, hnot⟩ := hnon hne
  simp only [Option.getD_some] at hnot
  rw [hnot, List.mem_append]
  have hmain := (OrderService.processStockUpdates_found item p items hmem hnodup db hfind).2.2
  constructor
  · intro hx
    rcases hx with hx | hx
    · exact hmain.1 hx
    · exact absurd hx (OrderService.lowStock_not_mem_sellerNotifs od.seller_id oid _ _ _ _)
  · intro hc
    exact Or.inl (hmain.2 hc)

/-- Witness for the amended C7: ordering quantity 2 against stock 7 lands
on stock 5, which is positive and at the threshold, and the low-stock
notification for the seller is indeed among the requested
notifications. -/
theorem claim_C7_low_stock_notification_amended_witness :
    NotificationReq.lowStock nearLowProductRec.seller_id demoCartItem.id
        (max 0 (nearLowProductRec.stock_quantity - demoCartItem.quantity))
        OrderService.lowStockThreshold ∈ nearLowRunResult.notifications :=
  (claim_C7_low_stock_notification_amended "u" codOrderData demoCart nearLowDB "o1"
      nearLowRunResult demoCartItem nearLowProductRec
      (by decide) (by decide) (by decide) (by decide)).2 ⟨by decide, by decide⟩

/-- Counterexample to claim C3 as stated: the order-service `createOrder`
invoked with an empty list of cart items is not rejected; it succeeds and
inserts the order row (with no order items). -/
theorem claim_C3_counterexample :
    (OrderService.createOrder (some "u") codOrderData (some []) [] "o1").map
        (fun r => (r.order, r.orderItems)) =
      some ({ buyer_id := "u", seller_id := none, status := "pending", total_amount := 0,
              payment_method := "cod", payment_status := some "pending",
              shipping_address := "addr", billing_address := "addr",
              delivery_option := none, payment_intent_id := none }, []) := by
  decide

/-- Claim C3 as amended: the checkout submission handler and the
cart-service `createOrder` reject an empty cart before any write (the
cart-service variant fails with the empty-cart error and by construction
writes nothing; the checkout handler never invokes order creation when no
item is selected); the order-service `createOrder`, however, does not
validate cart emptiness and inserts the order row even for an empty cart,
as the counterexample shows. -/
theorem claim_C3_empty_cart_amended :
    (∀ (uid ship bill pm oid : String),
      CartService.createOrder (some uid) [] ship bill pm oid =
        .error "Your cart is empty. Please add items before checkout.") ∧
    (∀ (items : List CartItem) (sel : String) (today : Nat) (pm addr : String) (sv : Bool),
      Cart.selectedItems items = [] →
      Checkout.handleSubmitCall items sel today pm addr sv = none) := by
  constructor
  · intro uid ship bill pm oid
    rfl
  · intro items sel today pm addr sv hsel
    unfold Checkout.handleSubmitCall
    by_cases hv : sv
    · simp [hv, hsel]
    · simp [hv]

/-- Witness for the amended C3: the concrete empty-cart calls are rejected
without writes by the cart-service variant and skipped by the checkout
handler. -/
theorem claim_C3_empty_cart_amended_witness :
    CartService.createOrder (some "u") [] "a" "a" "cod" "o1" =
      .error "Your cart is empty. Please add items before checkout." ∧
    Checkout.handleSubmitCall [] "standard" 0 "cod" "a" true = none :=
  ⟨claim_C3_empty_cart_amended.1 "u" "a" "a" "cod" "o1",
   claim_C3_empty_cart_amended.2 [] "standard" 0 "cod" "a" true (by decide)⟩

end Lokalnest
